import Mathlib

/-!
Verification of the statistical quality-control script
`Atividades/Atividade2/Atividade2EaD.py`.

The script is a single linear pass: it generates a population, sizes and
draws a sample, computes descriptive statistics, runs hypothesis tests,
builds confidence intervals, and issues a pass/fail decision. The
definitions below embed the arithmetic of that pass. Exact comparisons
and Boolean logic are embedded over `ℚ`; formulas involving square roots
(sample-size margin, standard errors, t statistics) are embedded over `ℝ`.
Python floats are modelled as exact reals/rationals throughout.
-/

set_option maxHeartbeats 1000000

/-- One row of the `populacao` / `amostra` DataFrame: a part with a weight
(grams) and a dimension (mm). -/
structure Peca where
  peso : ℚ
  dimensao : ℚ
deriving DecidableEq

/-- The `especificacoes` dict: the four specification bounds (lines 64-69). -/
structure Especificacoes where
  peso_min : ℚ
  peso_max : ℚ
  dimensao_min : ℚ
  dimensao_max : ℚ

/-- The concrete bounds used by the script (lines 64-69). -/
def especificacoes : Especificacoes :=
  { peso_min := 140, peso_max := 160, dimensao_min := 23.5, dimensao_max := 26.5 }

/-- `peso_conforme` for one row (lines 262-263): weight within
`[peso_min, peso_max]`, both comparisons inclusive. -/
def peso_conforme (e : Especificacoes) (r : Peca) : Bool :=
  decide (e.peso_min ≤ r.peso) && decide (r.peso ≤ e.peso_max)

/-- `dimensao_conforme` for one row (lines 264-265): dimension within
`[dimensao_min, dimensao_max]`, both comparisons inclusive. -/
def dimensao_conforme (e : Especificacoes) (r : Peca) : Bool :=
  decide (e.dimensao_min ≤ r.dimensao) && decide (r.dimensao ≤ e.dimensao_max)

/-- `pecas_conformes` (line 268): elementwise conjunction of the weight and
dimension conformity series over the sample. -/
def pecas_conformes (e : Especificacoes) (amostra : List Peca) : List Bool :=
  amostra.map (fun r => peso_conforme e r && dimensao_conforme e r)

/-- `proporcao_conformes` (line 269): `pecas_conformes.sum() / len(amostra)` —
the number of `True` entries divided by the sample size. -/
def proporcao_conformes (e : Especificacoes) (amostra : List Peca) : ℚ :=
  ((pecas_conformes e amostra).count true : ℚ) / (amostra.length : ℚ)

/-- `criterios_aprovacao['peso_media_ok']` (line 362): `abs(t_stat_peso) <= t_critico`. -/
def peso_media_ok (t_stat_peso t_critico : ℚ) : Bool :=
  decide (|t_stat_peso| ≤ t_critico)

/-- `criterios_aprovacao['dimensao_media_ok']` (line 363): `abs(t_stat_dimensao) <= t_critico`. -/
def dimensao_media_ok (t_stat_dimensao t_critico : ℚ) : Bool :=
  decide (|t_stat_dimensao| ≤ t_critico)

/-- `criterios_aprovacao['conformidade_ok']` (line 364): `p_value_prop >= alpha`. -/
def conformidade_ok (p_value_prop alpha : ℚ) : Bool :=
  decide (alpha ≤ p_value_prop)

/-- The list of the three criterion booleans, in dict order (lines 361-365). -/
def criterios_aprovacao (t_stat_peso t_stat_dimensao p_value_prop t_critico alpha : ℚ) :
    List Bool :=
  [peso_media_ok t_stat_peso t_critico,
   dimensao_media_ok t_stat_dimensao t_critico,
   conformidade_ok p_value_prop alpha]

/-- `todos_criterios_ok = all(criterios_aprovacao.values())` (line 372). -/
def todos_criterios_ok (t_stat_peso t_stat_dimensao p_value_prop t_critico alpha : ℚ) :
    Bool :=
  (criterios_aprovacao t_stat_peso t_stat_dimensao p_value_prop t_critico alpha).all id

/-- `decisao_final` (lines 375-380): `"APROVADO"` when all criteria hold,
`"REPROVADO"` otherwise. -/
def decisao_final (t_stat_peso t_stat_dimensao p_value_prop t_critico alpha : ℚ) :
    String :=
  if todos_criterios_ok t_stat_peso t_stat_dimensao p_value_prop t_critico alpha
  then "APROVADO" else "REPROVADO"

/-- `decisao_peso` (lines 218-222): reject H0 when the p-value is below alpha,
otherwise do not reject. (The dimension test, lines 247-251, is the same rule.) -/
def decisao_peso (p_value alpha : ℚ) : String :=
  if p_value < alpha then "Rejeitamos H0" else "Não rejeitamos H0"

/-- The two-sided p-value `scipy.stats.ttest_1samp` returns (line 206), modelled
from the library contract over an abstract CDF `F` of the t distribution:
`p = 2 * (1 - F(|t|))`. -/
def p_value_bilateral (F : ℚ → ℚ) (t : ℚ) : ℚ :=
  2 * (1 - F |t|)

/-- Auxiliary: the count of `True` entries of `pecas_conformes` is the count of
sample rows passing all four inclusive bound checks. -/
lemma count_pecas_conformes (e : Especificacoes) (amostra : List Peca) :
    (pecas_conformes e amostra).count true =
      amostra.countP (fun r => decide (e.peso_min ≤ r.peso ∧ r.peso ≤ e.peso_max ∧
        e.dimensao_min ≤ r.dimensao ∧ r.dimensao ≤ e.dimensao_max)) := by
  induction amostra with
  | nil => rfl
  | cons r rs ih =>
    simp only [pecas_conformes, List.map_cons, List.count_cons, List.countP_cons] at *
    rw [ih]
    congr 1
    simp [peso_conforme, dimensao_conforme, Bool.and_assoc, decide_eq_true_eq]

/-- C3: for every specification record and every sample, the conformity
proportion equals the number of rows whose weight lies in
`[peso_min, peso_max]` and whose dimension lies in
`[dimensao_min, dimensao_max]` (all four comparisons inclusive) divided by
the sample size. -/
theorem proporcao_conformes_eq (e : Especificacoes) (amostra : List Peca) :
    proporcao_conformes e amostra =
      ((amostra.countP (fun r => decide (e.peso_min ≤ r.peso ∧ r.peso ≤ e.peso_max ∧
        e.dimensao_min ≤ r.dimensao ∧ r.dimensao ≤ e.dimensao_max)) : ℚ)) /
      (amostra.length : ℚ) := by
  rw [proporcao_conformes, count_pecas_conformes]

/-- C2: the final label is `"APROVADO"` exactly when all three criterion
booleans — weight mean conforming, dimension mean conforming, and proportion
test not rejected — hold, and `"REPROVADO"` exactly otherwise; the label is a
function of those three comparisons alone. -/
theorem decisao_final_eq (t_stat_peso t_stat_dimensao p_value_prop t_critico alpha : ℚ) :
    (decisao_final t_stat_peso t_stat_dimensao p_value_prop t_critico alpha = "APROVADO" ↔
      (|t_stat_peso| ≤ t_critico ∧ |t_stat_dimensao| ≤ t_critico ∧ alpha ≤ p_value_prop)) ∧
    (decisao_final t_stat_peso t_stat_dimensao p_value_prop t_critico alpha = "REPROVADO" ↔
      ¬(|t_stat_peso| ≤ t_critico ∧ |t_stat_dimensao| ≤ t_critico ∧ alpha ≤ p_value_prop)) := by
  have hall : todos_criterios_ok t_stat_peso t_stat_dimensao p_value_prop t_critico alpha = true ↔
      (|t_stat_peso| ≤ t_critico ∧ |t_stat_dimensao| ≤ t_critico ∧ alpha ≤ p_value_prop) := by
    simp [todos_criterios_ok, criterios_aprovacao, peso_media_ok, dimensao_media_ok,
      conformidade_ok]
  cases hc : todos_criterios_ok t_stat_peso t_stat_dimensao p_value_prop t_critico alpha with
  | true =>
    rw [hc] at hall
    simp [decisao_final, hc, hall.mp rfl]
  | false =>
    have : ¬(|t_stat_peso| ≤ t_critico ∧ |t_stat_dimensao| ≤ t_critico ∧ alpha ≤ p_value_prop) := by
      intro h
      rw [hall.mpr h] at hc
      simp at hc
    simp [decisao_final, hc, this]

/-- C9: over an abstract strictly monotone CDF model `F` of the t distribution,
with the critical value defined by `F t_critico = 1 - alpha/2`, the p-value
decision of lines 218-222 (`"Não rejeitamos H0"` iff `p_value >= alpha`) agrees
with the critical-value criterion of line 362 (`|t| <= t_critico`). -/
theorem decisao_peso_agrees (F : ℚ → ℚ) (t t_critico alpha : ℚ)
    (hF : StrictMono F) (htc : F t_critico = 1 - alpha / 2) :
    (decisao_peso (p_value_bilateral F t) alpha = "Não rejeitamos H0" ↔
      peso_media_ok t t_critico = true) := by
  have key : alpha ≤ p_value_bilateral F t ↔ |t| ≤ t_critico := by
    have h1 : alpha ≤ p_value_bilateral F t ↔ F |t| ≤ 1 - alpha / 2 := by
      rw [p_value_bilateral]
      constructor <;> intro h <;> linarith
    rw [h1, ← htc, hF.le_iff_le]
  by_cases h : p_value_bilateral F t < alpha
  · have hnot : ¬ |t| ≤ t_critico := by
      rw [← key]
      exact fun hle => absurd h (not_lt.mpr hle)
    simp [decisao_peso, h, peso_media_ok, hnot]
  · have hyes : |t| ≤ t_critico := key.mp (not_lt.mp h)
    simp [decisao_peso, h, peso_media_ok, hyes]

/-- Witness for C9 at `F = id`, `t = 1/2`, `t_critico = 3/4`, `alpha = 1/2`. -/
theorem decisao_peso_agrees_witness :
    StrictMono (fun x : ℚ => x) ∧ (fun x : ℚ => x) (3/4) = 1 - (1/2) / 2 ∧
    (decisao_peso (p_value_bilateral (fun x : ℚ => x) (1/2)) (1/2) = "Não rejeitamos H0" ↔
      peso_media_ok (1/2) (3/4) = true) :=
  ⟨fun _ _ h => h, by norm_num,
    decisao_peso_agrees (fun x : ℚ => x) (1/2) (3/4) (1/2) (fun _ _ h => h) (by norm_num)⟩

/-- `n_calculado` (line 82): the closed-form sample-size formula
`(z^2 * p * (1-p) * N) / (E^2 * (N-1) + z^2 * p * (1-p))`. -/
noncomputable def n_calculado (N z p E : ℝ) : ℝ :=
  (z ^ 2 * p * (1 - p) * N) / (E ^ 2 * (N - 1) + z ^ 2 * p * (1 - p))

/-- `n_amostra = int(np.ceil(n_calculado))` (line 83). -/
noncomputable def n_amostra (N z p E : ℝ) : ℤ :=
  ⌈n_calculado N z p E⌉

/-- The margin of error implied by a sample of size `n` drawn from a population
of size `N` with critical value `z` and proportion `p`, with finite-population
correction: `z * sqrt(p*(1-p)/n * (N-n)/(N-1))`. Inverting this constraint in
`n` is what yields the formula of `n_calculado`; it is the spec-side meaning of
"the margin-of-error constraint for those N, z, p, E". -/
noncomputable def margem_implicada (N z p n : ℝ) : ℝ :=
  z * Real.sqrt (p * (1 - p) / n * ((N - n) / (N - 1)))

/-- Auxiliary: for positive real sample sizes, the implied margin of error is
at most `E` exactly when the size is at least `n_calculado`. -/
lemma margem_implicada_le_iff (N z p E : ℝ) (hN : 1 < N) (hz : 0 < z)
    (hp : 0 < p) (hp1 : p < 1) (hE : 0 < E) (m : ℝ) (hm : 0 < m) :
    margem_implicada N z p m ≤ E ↔ n_calculado N z p E ≤ m := by
  have hN1 : (0:ℝ) < N - 1 := by linarith
  have h1p : (0:ℝ) < 1 - p := by linarith
  have hden : (0:ℝ) < E ^ 2 * (N - 1) + z ^ 2 * p * (1 - p) := by positivity
  have step1 : margem_implicada N z p m ≤ E ↔
      Real.sqrt (p * (1 - p) / m * ((N - m) / (N - 1))) ≤ E / z := by
    rw [margem_implicada, le_div_iff₀ hz, mul_comm]
  rw [step1, Real.sqrt_le_iff, n_calculado]
  have hEz : 0 ≤ E / z := by positivity
  simp only [hEz, true_and]
  rw [div_mul_div_comm, div_pow,
    div_le_div_iff₀ (by positivity) (by positivity : (0:ℝ) < z ^ 2),
    div_le_iff₀ hden]
  constructor <;> intro h <;> nlinarith [h]

/-- C1: under the stated parameter ranges, `n_amostra` is the ceiling of the
closed-form `n_calculado`, and it is the least integer `m ≥ 1` whose implied
margin of error is at most `E`. -/
theorem n_amostra_least (N z p E : ℝ) (hN : 1 < N) (hz : 0 < z)
    (hp : 0 < p) (hp1 : p < 1) (hE : 0 < E) :
    n_amostra N z p E = ⌈n_calculado N z p E⌉ ∧
    IsLeast {m : ℤ | 1 ≤ m ∧ margem_implicada N z p (m : ℝ) ≤ E}
      (n_amostra N z p E) := by
  have h1p : (0:ℝ) < 1 - p := by linarith
  have hN0 : (0:ℝ) < N := by linarith
  have hN1 : (0:ℝ) < N - 1 := by linarith
  have hpos : 0 < n_calculado N z p E := by
    rw [n_calculado]; positivity
  have hceil1 : 1 ≤ n_amostra N z p E := by
    rw [n_amostra]
    exact Int.one_le_ceil_iff.mpr hpos
  refine ⟨rfl, ⟨⟨hceil1, ?_⟩, ?_⟩⟩
  · have hmpos : (0:ℝ) < ((n_amostra N z p E : ℤ) : ℝ) := by
      have : (1:ℝ) ≤ ((n_amostra N z p E : ℤ) : ℝ) := by exact_mod_cast hceil1
      linarith
    rw [margem_implicada_le_iff N z p E hN hz hp hp1 hE _ hmpos]
    exact Int.le_ceil _
  · rintro m ⟨hm1, hmE⟩
    have hmpos : (0:ℝ) < (m : ℝ) := by
      have : (1:ℝ) ≤ (m : ℝ) := by exact_mod_cast hm1
      linarith
    rw [margem_implicada_le_iff N z p E hN hz hp hp1 hE _ hmpos] at hmE
    exact Int.ceil_le.mpr hmE

/-- Witness for C1 at the script's parameters `N = 5000`, `z = 1.96`,
`p = 0.5`, `E = 0.02`. -/
theorem n_amostra_least_witness :
    (1:ℝ) < 5000 ∧ (0:ℝ) < 1.96 ∧ (0:ℝ) < 0.5 ∧ (0.5:ℝ) < 1 ∧ (0:ℝ) < 0.02 ∧
    (n_amostra 5000 1.96 0.5 0.02 = ⌈n_calculado 5000 1.96 0.5 0.02⌉ ∧
     IsLeast {m : ℤ | 1 ≤ m ∧ margem_implicada 5000 1.96 0.5 (m : ℝ) ≤ 0.02}
       (n_amostra 5000 1.96 0.5 0.02)) :=
  ⟨by norm_num, by norm_num, by norm_num, by norm_num, by norm_num,
   n_amostra_least 5000 1.96 0.5 0.02 (by norm_num) (by norm_num) (by norm_num)
     (by norm_num) (by norm_num)⟩

/-- C8: with the script's fixed parameters the computed sample size is 1623,
which lies between 1 and the population size 5000, so drawing that many
distinct indices from the population is well-defined. -/
theorem n_amostra_in_range :
    n_amostra 5000 1.96 0.5 0.02 = 1623 ∧
    1 ≤ n_amostra 5000 1.96 0.5 0.02 ∧ n_amostra 5000 1.96 0.5 0.02 ≤ 5000 := by
  have h : n_amostra 5000 1.96 0.5 0.02 = 1623 := by
    rw [n_amostra, n_calculado]
    rw [show ((1.96:ℝ) ^ 2 * 0.5 * (1 - 0.5) * 5000) /
        (0.02 ^ 2 * (5000 - 1) + 1.96 ^ 2 * 0.5 * (1 - 0.5)) = 60025 / 37 by norm_num]
    rw [Int.ceil_eq_iff]
    constructor <;> norm_num
  exact ⟨h, by rw [h]; norm_num, by rw [h]; norm_num⟩

/-- `margem_erro_peso` / `margem_erro_dimensao` (lines 319, 331): critical
value times standard error. -/
noncomputable def margem_erro (t_critico erro_padrao : ℝ) : ℝ :=
  t_critico * erro_padrao

/-- `ic_peso_inferior` / `ic_dimensao_inferior` (lines 320, 332):
mean minus margin of error. -/
noncomputable def ic_inferior (media margem_erro : ℝ) : ℝ :=
  media - margem_erro

/-- `ic_peso_superior` / `ic_dimensao_superior` (lines 321, 333):
mean plus margin of error. -/
noncomputable def ic_superior (media margem_erro : ℝ) : ℝ :=
  media + margem_erro

/-- `erro_padrao_prop` (line 342): `sqrt(p_obs * (1 - p_obs) / n)`. -/
noncomputable def erro_padrao_prop (p_obs n : ℝ) : ℝ :=
  Real.sqrt (p_obs * (1 - p_obs) / n)

/-- `margem_erro_prop` (line 344): `z_ic * erro_padrao_prop`. -/
noncomputable def margem_erro_prop (z_ic p_obs n : ℝ) : ℝ :=
  z_ic * erro_padrao_prop p_obs n

/-- `ic_prop_inferior` (line 345): `max(0, p_obs - margem_erro_prop)`. -/
noncomputable def ic_prop_inferior (p_obs margem : ℝ) : ℝ :=
  max 0 (p_obs - margem)

/-- `ic_prop_superior` (line 346): `min(1, p_obs + margem_erro_prop)`. -/
noncomputable def ic_prop_superior (p_obs margem : ℝ) : ℝ :=
  min 1 (p_obs + margem)

/-- Counterexample for C4: the proportion interval is clamped at 0, so its
lower bound is not `estimate - margin` in general. At `p_obs = 1/10`,
`z_ic = 1.96`, `n = 4` the margin is `1.96 * sqrt(9/400) = 147/500 > 1/10`,
so the reported lower bound is `0`, not the negative `p_obs - margin`. -/
theorem ic_prop_inferior_not_symmetric :
    ic_prop_inferior (1/10) (margem_erro_prop 1.96 (1/10) 4) ≠
      1/10 - margem_erro_prop 1.96 (1/10) 4 := by
  have hsqrt : erro_padrao_prop (1/10) 4 = 3/20 := by
    rw [erro_padrao_prop,
      show (1/10 : ℝ) * (1 - 1/10) / 4 = (3/20) ^ 2 by norm_num,
      Real.sqrt_sq (by norm_num : (0:ℝ) ≤ 3/20)]
  have hm : margem_erro_prop 1.96 (1/10) 4 = 147/500 := by
    rw [margem_erro_prop, hsqrt]; norm_num
  rw [ic_prop_inferior, hm,
    show (1/10 : ℝ) - 147/500 = -(97/500) by norm_num,
    max_eq_left (by norm_num : (-(97/500) : ℝ) ≤ 0)]
  norm_num

/-- C4 (amended): the weight-mean and dimension-mean intervals always bracket
the mean symmetrically by the reported margin; the proportion interval is
clamped to `[0, 1]`, and brackets `p_obs` symmetrically by its margin exactly
when the unclamped endpoints already lie in `[0, 1]`. -/
theorem ic_bounds_bracket (media margem p_obs m : ℝ)
    (h1 : 0 ≤ p_obs - m) (h2 : p_obs + m ≤ 1) :
    ic_superior media margem - media = margem ∧
    media - ic_inferior media margem = margem ∧
    p_obs - ic_prop_inferior p_obs m = m ∧
    ic_prop_superior p_obs m - p_obs = m := by
  refine ⟨by rw [ic_superior]; ring, by rw [ic_inferior]; ring, ?_, ?_⟩
  · rw [ic_prop_inferior, max_eq_right h1]; ring
  · rw [ic_prop_superior, min_eq_right h2]; ring

/-- Witness for the amended C4 at `media = 10`, `margem = 2`, `p_obs = 1/2`,
`m = 1/10`. -/
theorem ic_bounds_bracket_witness :
    (0 ≤ (1/2 : ℝ) - 1/10) ∧ ((1/2 : ℝ) + 1/10 ≤ 1) ∧
    (ic_superior 10 2 - 10 = 2 ∧
     10 - ic_inferior 10 2 = 2 ∧
     (1/2 : ℝ) - ic_prop_inferior (1/2) (1/10) = 1/10 ∧
     ic_prop_superior (1/2) (1/10) - 1/2 = 1/10) :=
  ⟨by norm_num, by norm_num,
   ic_bounds_bracket 10 2 (1/2) (1/10) (by norm_num) (by norm_num)⟩

/-- C10: for every `p_obs ∈ [0,1]`, nonnegative `z_ic` and any `n`, the
reported proportion interval is clamped to the unit interval and contains
the observed proportion. -/
theorem ic_prop_clamped (z_ic p_obs n : ℝ) (hz : 0 ≤ z_ic)
    (h0 : 0 ≤ p_obs) (h1 : p_obs ≤ 1) :
    0 ≤ ic_prop_inferior p_obs (margem_erro_prop z_ic p_obs n) ∧
    ic_prop_superior p_obs (margem_erro_prop z_ic p_obs n) ≤ 1 ∧
    ic_prop_inferior p_obs (margem_erro_prop z_ic p_obs n) ≤ p_obs ∧
    p_obs ≤ ic_prop_superior p_obs (margem_erro_prop z_ic p_obs n) := by
  have hm : 0 ≤ margem_erro_prop z_ic p_obs n := by
    rw [margem_erro_prop, erro_padrao_prop]
    exact mul_nonneg hz (Real.sqrt_nonneg _)
  refine ⟨le_max_left _ _, min_le_left _ _, ?_, ?_⟩
  · rw [ic_prop_inferior]
    exact max_le h0 (by linarith)
  · rw [ic_prop_superior]
    exact le_min h1 (by linarith)

/-- Witness for C10 at `z_ic = 1.96`, `p_obs = 1/2`, `n = 4`. -/
theorem ic_prop_clamped_witness :
    (0 ≤ (1.96 : ℝ)) ∧ (0 ≤ (1/2 : ℝ)) ∧ ((1/2 : ℝ) ≤ 1) ∧
    (0 ≤ ic_prop_inferior (1/2) (margem_erro_prop 1.96 (1/2) 4) ∧
     ic_prop_superior (1/2) (margem_erro_prop 1.96 (1/2) 4) ≤ 1 ∧
     ic_prop_inferior (1/2) (margem_erro_prop 1.96 (1/2) 4) ≤ 1/2 ∧
     (1/2 : ℝ) ≤ ic_prop_superior (1/2) (margem_erro_prop 1.96 (1/2) 4)) :=
  ⟨by norm_num, by norm_num, by norm_num,
   ic_prop_clamped 1.96 (1/2) 4 (by norm_num) (by norm_num) (by norm_num)⟩

/-- `dados.mean()` as used in `calcular_estatisticas` (line 109). -/
noncomputable def media (dados : List ℝ) : ℝ :=
  dados.sum / (dados.length : ℝ)

/-- `dados.var(ddof=1)` as used in `calcular_estatisticas` (line 113): the
sample variance with denominator `n - 1`. -/
noncomputable def variancia (dados : List ℝ) : ℝ :=
  (dados.map (fun x => (x - media dados) ^ 2)).sum / ((dados.length : ℝ) - 1)

/-- `dados.std(ddof=1)` as used in `calcular_estatisticas` (line 112):
the square root of the sample variance. -/
noncomputable def desvio_padrao (dados : List ℝ) : ℝ :=
  Real.sqrt (variancia dados)

/-- `peso_target = 150` (line 203). -/
noncomputable def peso_target : ℝ := 150

/-- The t statistic returned by `scipy.stats.ttest_1samp` (line 206), modelled
from the library contract: `t = (mean(a) - popmean) / sqrt(var(a, ddof=1) / n)`. -/
noncomputable def ttest_1samp_stat (dados : List ℝ) (popmean : ℝ) : ℝ :=
  (media dados - popmean) / Real.sqrt (variancia dados / (dados.length : ℝ))

/-- The recomputation named by the spec: `(mean - popmean) / (std / sqrt(n))`
with `std = dados.std(ddof=1)`. -/
noncomputable def t_recomputado (dados : List ℝ) (popmean : ℝ) : ℝ :=
  (media dados - popmean) / (desvio_padrao dados / Real.sqrt (dados.length : ℝ))

/-- Auxiliary: the sample variance is nonnegative once `n ≥ 2`. -/
lemma variancia_nonneg (dados : List ℝ) (h2 : 2 ≤ dados.length) :
    0 ≤ variancia dados := by
  rw [variancia]
  apply div_nonneg
  · apply List.sum_nonneg
    intro x hx
    rcases List.mem_map.mp hx with ⟨y, _, rfl⟩
    positivity
  · have : (2:ℝ) ≤ (dados.length : ℝ) := by exact_mod_cast h2
    linarith

/-- C6: for a sample with at least two rows and nonzero sample standard
deviation, the library one-sample t statistic for the weight test equals the
value recomputed from the sample mean, the ddof=1 standard deviation and the
sample size as `(mean - 150) / (std / sqrt(n))`, exactly over the real-number
embedding. -/
theorem ttest_stat_recompute (dados : List ℝ) (h2 : 2 ≤ dados.length)
    (_hsd : desvio_padrao dados ≠ 0) :
    ttest_1samp_stat dados peso_target = t_recomputado dados peso_target := by
  rw [ttest_1samp_stat, t_recomputado, desvio_padrao,
    Real.sqrt_div (variancia_nonneg dados h2)]

/-- Witness for C6 at the two-row sample `[149, 151]` (mean 150, variance 2). -/
theorem ttest_stat_recompute_witness :
    2 ≤ ([149, 151] : List ℝ).length ∧ desvio_padrao [149, 151] ≠ 0 ∧
    ttest_1samp_stat [149, 151] peso_target = t_recomputado [149, 151] peso_target := by
  have hmedia : media [149, 151] = 150 := by
    rw [media]
    norm_num
  have hvar : variancia [149, 151] = 2 := by
    rw [variancia, hmedia]
    norm_num
  have hsd : desvio_padrao [149, 151] ≠ 0 := by
    rw [desvio_padrao, hvar]
    exact ne_of_gt (Real.sqrt_pos.mpr (by norm_num))
  exact ⟨by norm_num, hsd, ttest_stat_recompute [149, 151] (by norm_num) hsd⟩

/-- `amostra = populacao.iloc[indices_amostra]` (line 93): the rows of the
population at the drawn indices, in order. Out-of-range indices — which
`pandas.DataFrame.iloc` would reject and which the validity hypothesis below
excludes — are mapped to a default row. -/
def iloc (populacao : List Peca) (indices : List ℕ) : List Peca :=
  indices.map (fun i => populacao.getD i { peso := 0, dimensao := 0 })

/-- C5: if the drawn index list satisfies the contract of
`np.random.choice(len(populacao), size=n_amostra, replace=False)` (line 92) —
pairwise-distinct indices, all below the population size, exactly
`n_amostra N z p E` of them — then the sample is a subset of the population
drawn without replacement whose size is the formula-determined `n_amostra`. -/
theorem amostra_sem_reposicao (populacao : List Peca) (indices : List ℕ)
    (N z p E : ℝ) (hnodup : indices.Nodup)
    (hvalid : ∀ i ∈ indices, i < populacao.length)
    (hlen : (indices.length : ℤ) = n_amostra N z p E) :
    (∀ r ∈ iloc populacao indices, r ∈ populacao) ∧
    indices.Nodup ∧
    ((iloc populacao indices).length : ℤ) = n_amostra N z p E := by
  refine ⟨?_, hnodup, ?_⟩
  · intro r hr
    rcases List.mem_map.mp hr with ⟨i, hi, rfl⟩
    have hilt := hvalid i hi
    rw [List.getD_eq_getElem?_getD, List.getElem?_eq_getElem hilt]
    exact List.getElem_mem hilt
  · rw [iloc, List.length_map]
    exact hlen

/-- Auxiliary: at `N = 2` and the script's remaining parameters, the formula
gives a sample size of 2. -/
lemma n_amostra_two : n_amostra 2 1.96 0.5 0.02 = 2 := by
  rw [n_amostra, n_calculado]
  rw [show ((1.96:ℝ) ^ 2 * 0.5 * (1 - 0.5) * 2) /
      (0.02 ^ 2 * (2 - 1) + 1.96 ^ 2 * 0.5 * (1 - 0.5)) = 2401 / 1201 by norm_num]
  rw [Int.ceil_eq_iff]
  constructor <;> norm_num

/-- Witness for C5: a two-row population with indices `[0, 1]` and the
parameters `N = 2`, `z = 1.96`, `p = 0.5`, `E = 0.02`, for which the formula
gives sample size 2. -/
theorem amostra_sem_reposicao_witness :
    ([0, 1] : List ℕ).Nodup ∧
    (∀ i ∈ ([0, 1] : List ℕ), i < ([⟨150, 25⟩, ⟨151, 24⟩] : List Peca).length) ∧
    ((([0, 1] : List ℕ).length : ℤ) = n_amostra 2 1.96 0.5 0.02) ∧
    ((∀ r ∈ iloc [⟨150, 25⟩, ⟨151, 24⟩] [0, 1],
        r ∈ ([⟨150, 25⟩, ⟨151, 24⟩] : List Peca)) ∧
     ([0, 1] : List ℕ).Nodup ∧
     ((iloc [⟨150, 25⟩, ⟨151, 24⟩] [0, 1]).length : ℤ) = n_amostra 2 1.96 0.5 0.02) :=
  ⟨by decide, by decide, by rw [n_amostra_two]; rfl,
   amostra_sem_reposicao [⟨150, 25⟩, ⟨151, 24⟩] [0, 1] 2 1.96 0.5 0.02
     (by decide) (by decide) (by rw [n_amostra_two]; rfl)⟩

/-- The seaborn import attempt (lines 12-18): given whether seaborn can be
imported, returns the pair `(SEABORN_AVAILABLE, notice printed)` — the flag
is set to the availability and the notice is printed exactly when importing
failed; in both branches execution continues. -/
def trySeabornImport (seaborn_importavel : Bool) : Bool × Bool :=
  if seaborn_importavel then (true, false) else (false, true)

/-- `plt.style.use` (lines 22, 25, 27), modelled from the library contract:
applying an available style succeeds and returns it, applying an unavailable
style raises. -/
def plt_style_use (estilos_disponiveis : List String) (estilo : String) :
    Except String String :=
  if estilo ∈ estilos_disponiveis then Except.ok estilo else Except.error estilo

/-- The style-configuration block (lines 21-28): try `'seaborn-v0_8'`; on any
exception try `'seaborn'`; on any exception fall back to `'default'` (this
last call is outside every handler, so its failure would escape). -/
def configurar_estilo (estilos_disponiveis : List String) : Except String String :=
  match plt_style_use estilos_disponiveis "seaborn-v0_8" with
  | Except.ok s => Except.ok s
  | Except.error _ =>
    match plt_style_use estilos_disponiveis "seaborn" with
    | Except.ok s => Except.ok s
    | Except.error _ => plt_style_use estilos_disponiveis "default"

/-- C7: the setup block's error handling is a soft fallback. For every
environment in which the default style exists, the style block returns
normally — no exception escapes — choosing `'seaborn-v0_8'`, then
`'seaborn'`, then `'default'`, in that preference order; and the attempted
seaborn import always continues, setting the flag to the availability and
printing the notice exactly on failure. -/
theorem setup_soft_fallback (estilos_disponiveis : List String)
    (seaborn_importavel : Bool)
    (hdef : "default" ∈ estilos_disponiveis) :
    (trySeabornImport seaborn_importavel).1 = seaborn_importavel ∧
    (trySeabornImport seaborn_importavel).2 = !seaborn_importavel ∧
    configurar_estilo estilos_disponiveis =
      Except.ok (if "seaborn-v0_8" ∈ estilos_disponiveis then "seaborn-v0_8"
                 else if "seaborn" ∈ estilos_disponiveis then "seaborn"
                 else "default") := by
  refine ⟨by cases seaborn_importavel <;> rfl,
          by cases seaborn_importavel <;> rfl, ?_⟩
  by_cases h1 : "seaborn-v0_8" ∈ estilos_disponiveis
  · simp [configurar_estilo, plt_style_use, h1]
  · by_cases h2 : "seaborn" ∈ estilos_disponiveis
    · simp [configurar_estilo, plt_style_use, h1, h2]
    · simp [configurar_estilo, plt_style_use, h1, h2, hdef]

/-- Witness for C7 in the environment where only the default style exists and
seaborn is not importable. -/
theorem setup_soft_fallback_witness :
    ("default" ∈ ["default"]) ∧
    ((trySeabornImport false).1 = false ∧
     (trySeabornImport false).2 = !false ∧
     configurar_estilo ["default"] =
       Except.ok (if "seaborn-v0_8" ∈ ["default"] then "seaborn-v0_8"
                  else if "seaborn" ∈ ["default"] then "seaborn"
                  else "default")) :=
  ⟨by decide, setup_soft_fallback ["default"] false (by decide)⟩
